import Mathlib

/-!
Verification development for the glm-realtime-sdk repository.

The file embeds, as executable Lean definitions, the parts of the sources
that the checked properties talk about:

* `src/qwen-sample/vad_mode.py` — the interrupt-capable `AudioPlayer`
  (a queue of chunks, a stop event and an interrupt event, plus the
  consumer thread's loop body) and the `record_and_send` capture loop;
* `src/qwen-sample/omni_realtime_client.py` — the `OmniRealtimeClient`
  event dispatcher (`handle_messages` loop body, `handle_interruption`,
  `send_event`, `stream_audio`);
* `src/python/samples/audio_player.py` — the glm `AudioPlayer`
  (`play_base64` / `play_bytes`);
* `src/python/samples/message_handler.py` — the type-string routing of
  `MessageHandler.receive_messages`;
* the standard base64 wire codec (`base64.b64encode` / `base64.b64decode`)
  used by `stream_audio` and the audio-delta handlers, modelled at the
  level of ASCII byte codes, canonical alphabet `A–Z a–z 0–9 + /` with
  `=` (code 61) padding.

Definitions come first, then the theorems about them.
-/

/-! ## vad_mode.py: interrupt-capable AudioPlayer -/

/-- Raw audio bytes, one chunk, as handed to `AudioPlayer.add_audio`. -/
abbrev Bytes := List Nat

/-- State of the `AudioPlayer` in `vad_mode.py`: the `queue.Queue` contents
(where `none` is the sentinel that `stop` pushes), the `stop_evt`
threading event and the `interrupt_evt` threading event. -/
structure PlayerState where
  queue : List (Option Bytes)
  stopEvt : Bool
  interruptEvt : Bool
deriving DecidableEq, Repr

/-- Freshly constructed player: empty queue, neither event set. -/
def initPlayer : PlayerState := ⟨[], false, false⟩

/-- Source `AudioPlayer.add_audio`: `self.queue.put(data)`. -/
def add_audio (d : Bytes) (s : PlayerState) : PlayerState :=
  { s with queue := s.queue ++ [some d] }

/-- Source `AudioPlayer.handle_interrupt`: `self.interrupt_evt.set(); self.queue.queue.clear()`. -/
def handle_interrupt (s : PlayerState) : PlayerState :=
  { s with interruptEvt := true, queue := [] }

/-- Source `AudioPlayer.stop`: sets `stop_evt` and pushes the `None` sentinel
(the stream teardown is device I/O, outside the model). -/
def stopPlayer (s : PlayerState) : PlayerState :=
  { s with stopEvt := true, queue := s.queue ++ [none] }

/-- One iteration of the consumer loop `AudioPlayer._run`: if `stop_evt`
is set the loop exits without writing; otherwise the head of the queue is
taken (an empty queue is the `queue.Empty` timeout, no write), the `None`
sentinel breaks without writing, and a data chunk is written to the
output stream only when `interrupt_evt` is not set.  The second component
is the data written to the output device by this iteration, if any. -/
def runStep (s : PlayerState) : PlayerState × Option Bytes :=
  if s.stopEvt then (s, none)
  else
    match s.queue with
    | [] => (s, none)
    | none :: rest => ({ s with queue := rest }, none)
    | some d :: rest =>
        ({ s with queue := rest }, if s.interruptEvt then none else some d)

/-- The operations that can hit an `AudioPlayer` after construction:
producer enqueue, interrupt, stop, and one consumer-loop iteration. -/
inductive PlayerOp where
  | addAudio (d : Bytes)
  | interrupt
  | stopIt
  | consume
deriving DecidableEq, Repr

/-- Apply one operation; the second component is the data written to the
output device by that operation (only `consume` can write). -/
def applyOp (s : PlayerState) : PlayerOp → PlayerState × Option Bytes
  | .addAudio d => (add_audio d s, none)
  | .interrupt => (handle_interrupt s, none)
  | .stopIt => (stopPlayer s, none)
  | .consume => runStep s

/-- Everything written to the output device while a sequence of
operations runs from a given state, in order. -/
def writesTrace (s : PlayerState) : List PlayerOp → List Bytes
  | [] => []
  | op :: rest =>
      let p := applyOp s op
      (match p.2 with | some d => [d] | none => []) ++ writesTrace p.1 rest

/-- C1, as the spec states it: on an interrupted player, `enqueue`
"silently discards" an arriving chunk (the state is left unchanged). -/
def c1ClaimEnqueueDiscards : Prop :=
  ∀ (s : PlayerState) (d : Bytes), s.interruptEvt = true → add_audio d s = s

/-- C2, as the spec states it: the interrupt call discards every chunk
arriving afterward (the queue stays empty after post-interrupt enqueues). -/
def c2ClaimLaterDiscarded : Prop :=
  ∀ (s : PlayerState) (d : Bytes), (add_audio d (handle_interrupt s)).queue = []

/-! ## Base64 wire codec

`stream_audio` sends `base64.b64encode(audio_chunk).decode()` and the
audio-delta handlers run `base64.b64decode(event["delta"])`.  The wire
representation is modelled as the list of ASCII codes of the base64
string; bytes are `Nat`s below 256. -/

/-- ASCII code of the base64 alphabet character for a 6-bit value:
`A–Z` (65–90), `a–z` (97–122), `0–9` (48–57), `+` (43), `/` (47). -/
def b64CharCode (n : Nat) : Nat :=
  if n < 26 then 65 + n
  else if n < 52 then 71 + n
  else if n < 62 then n - 4
  else if n = 62 then 43
  else 47

/-- The 6-bit value of an ASCII code, `none` for codes outside the alphabet
(`=`, code 61, is outside and is handled by the decoder as padding). -/
def b64CodeVal (c : Nat) : Option Nat :=
  if 65 ≤ c ∧ c ≤ 90 then some (c - 65)
  else if 97 ≤ c ∧ c ≤ 122 then some (c - 71)
  else if 48 ≤ c ∧ c ≤ 57 then some (c + 4)
  else if c = 43 then some 62
  else if c = 47 then some 63
  else none

/-- Source `base64.b64encode` on a byte buffer: three bytes become four alphabet
codes; a final byte or byte pair is padded with `=` (code 61). -/
def b64encode : List Nat → List Nat
  | [] => []
  | [a] => [b64CharCode (a / 4), b64CharCode (a % 4 * 16), 61, 61]
  | [a, b] =>
      [b64CharCode (a / 4), b64CharCode (a % 4 * 16 + b / 16),
       b64CharCode (b % 16 * 4), 61]
  | a :: b :: c :: rest =>
      b64CharCode (a / 4) :: b64CharCode (a % 4 * 16 + b / 16) ::
      b64CharCode (b % 16 * 4 + c / 64) :: b64CharCode (c % 64) ::
      b64encode rest

/-- Source `base64.b64decode` on canonical input: groups of four codes, with `=`
padding allowed only at the very end; `none` models the `binascii.Error`
the Python decoder raises on malformed input (e.g. a length that is not a
multiple of four). -/
def b64decode : List Nat → Option (List Nat)
  | [] => some []
  | c1 :: c2 :: c3 :: c4 :: rest =>
      match b64CodeVal c1, b64CodeVal c2 with
      | some s1, some s2 =>
          if c3 = 61 then
            if c4 = 61 ∧ rest = [] then some [s1 * 4 + s2 / 16] else none
          else
            match b64CodeVal c3 with
            | some s3 =>
                if c4 = 61 then
                  if rest = [] then
                    some [s1 * 4 + s2 / 16, s2 % 16 * 16 + s3 / 4]
                  else none
                else
                  match b64CodeVal c4 with
                  | some s4 =>
                      match b64decode rest with
                      | some tl =>
                          some ((s1 * 4 + s2 / 16) :: (s2 % 16 * 16 + s3 / 4) ::
                                (s3 % 4 * 64 + s4) :: tl)
                      | none => none
                  | none => none
            | none => none
      | _, _ => none
  | _ => none

/-- Decode a base64 `String` payload, as `b64decode(event["delta"])`
does, by decoding the codepoints of its characters. -/
def b64decodeStr (p : String) : Option (List Nat) :=
  b64decode (p.data.map Char.toNat)

/-! ## omni_realtime_client.py: the event dispatcher -/

/-- Dispatcher-visible state of `OmniRealtimeClient`:
`_current_response_id`, `_current_item_id`, `_is_responding`,
`_print_input_transcript`, `_output_transcript_buffer`. -/
structure OmniState where
  responseId : Option String
  itemId : Option String
  isResponding : Bool
  printInputTranscript : Bool
  outBuffer : String
deriving DecidableEq, Repr

/-- State right after `__init__`. -/
def initOmni : OmniState := ⟨none, none, false, true, ""⟩

/-- An inbound JSON frame as the dispatcher reads it: the `type` string
plus the fields the handlers access, each `none` when absent
(`event.get(...)` yields `None`; a direct `event[...]` on an absent field
raises `KeyError`). -/
structure Frame where
  ty : String
  responseId : Option String
  itemId : Option String
  delta : Option String
  transcript : Option String
  errField : Option String
deriving DecidableEq, Repr

/-- Which optional callbacks the client was constructed with, and the
keys of `extra_event_handlers`. -/
structure Cfg where
  hasTextDelta : Bool
  hasAudioDelta : Bool
  hasInputTranscript : Bool
  hasOutputTranscript : Bool
  extras : List String
deriving DecidableEq, Repr

/-- Observable actions of one dispatch step: an outbound client event (by
type), a console print, or a callback invocation. -/
inductive Out where
  | sent (ty : String)
  | log (tag : String)
  | callText (d : String)
  | callAudio (bytes : List Nat)
  | callInput (t : String)
  | callOutput (t : String)
  | callExtra (ty : String)
deriving DecidableEq, Repr

/-- Result of handling one frame: new state and outputs, or an uncaught
exception escaping the loop body. -/
inductive HRes where
  | ok (s : OmniState) (outs : List Out)
  | err
deriving DecidableEq, Repr

/-- Outputs of a handling result (`[]` when the handler raised). -/
def outsOf : HRes → List Out
  | .ok _ outs => outs
  | .err => []

/-- Python truthiness of an optional string (`None` and `""` are falsy),
as used by `if self._current_response_id:`. -/
def strTruthy : Option String → Bool
  | none => false
  | some s => if s = "" then false else true

/-- Source `OmniRealtimeClient.handle_interruption`: returns without doing
anything unless `_is_responding`; sends `response.cancel` only when
`_current_response_id` is truthy; clears the responding flag and both
ids. -/
def handle_interruption (s : OmniState) : OmniState × List Out :=
  if s.isResponding = false then (s, [])
  else
    ({ s with isResponding := false, responseId := none, itemId := none },
     if strTruthy s.responseId then [Out.sent "response.cancel"] else [])

/-- The event types the `handle_messages` elif-chain tests for. -/
def knownOmniTypes : List String :=
  ["error", "response.created", "response.output_item.added",
   "response.done", "input_audio_buffer.speech_started",
   "input_audio_buffer.speech_stopped", "response.text.delta",
   "response.audio.delta",
   "conversation.item.input_audio_transcription.completed",
   "response.audio_transcript.delta", "response.audio_transcript.done"]

/-- The body of the `async for` loop of
`OmniRealtimeClient.handle_messages`, applied to one frame: the elif
chain over `event_type`, in source order, with the extension map checked
last.  `HRes.err` marks an exception escaping the body (a `KeyError` on a
missing required field or a `binascii.Error` from `base64.b64decode`). -/
def handle_message (c : Cfg) (s : OmniState) (f : Frame) : HRes :=
  if f.ty = "error" then
    match f.errField with
    | some _ => .ok s [Out.log "error"]
    | none => .err
  else if f.ty = "response.created" then
    .ok { s with responseId := f.responseId, isResponding := true } []
  else if f.ty = "response.output_item.added" then
    .ok { s with itemId := f.itemId } []
  else if f.ty = "response.done" then
    .ok { s with isResponding := false, responseId := none, itemId := none } []
  else if f.ty = "input_audio_buffer.speech_started" then
    if s.isResponding then
      .ok (handle_interruption s).1
        (Out.log "speech_started" :: Out.log "interrupt" ::
          (handle_interruption s).2)
    else .ok s [Out.log "speech_started"]
  else if f.ty = "input_audio_buffer.speech_stopped" then
    .ok s [Out.log "speech_stopped"]
  else if f.ty = "response.text.delta" then
    if c.hasTextDelta then
      match f.delta with
      | some d => .ok s [Out.callText d]
      | none => .err
    else .ok s []
  else if f.ty = "response.audio.delta" then
    if c.hasAudioDelta then
      match f.delta with
      | some d =>
          match b64decodeStr d with
          | some bytes => .ok s [Out.callAudio bytes]
          | none => .err
      | none => .err
    else .ok s []
  else if f.ty = "conversation.item.input_audio_transcription.completed" then
    if c.hasInputTranscript then
      .ok { s with printInputTranscript := true }
        [Out.log "input_transcript", Out.callInput (f.transcript.getD "")]
    else .ok s [Out.log "input_transcript"]
  else if f.ty = "response.audio_transcript.delta" then
    if c.hasOutputTranscript then
      if s.printInputTranscript = false then
        .ok { s with outBuffer := s.outBuffer ++ f.delta.getD "" } []
      else if s.outBuffer = "" then
        .ok s [Out.callOutput (f.delta.getD "")]
      else
        .ok { s with outBuffer := "" }
          [Out.callOutput s.outBuffer, Out.callOutput (f.delta.getD "")]
    else .ok s []
  else if f.ty = "response.audio_transcript.done" then
    .ok { s with printInputTranscript := false } [Out.log "output_transcript_done"]
  else if f.ty ∈ c.extras then .ok s [Out.callExtra f.ty]
  else .ok s []

/-- Result of running the receive loop over a frame sequence: final
state, outputs in order, and whether the loop was terminated by an
exception (the outer `except Exception` prints and exits the loop, so
later frames are never processed). -/
structure LoopResult where
  state : OmniState
  outs : List Out
  aborted : Bool
deriving DecidableEq, Repr

/-- Source `OmniRealtimeClient.handle_messages` over a finite inbound frame
sequence. -/
def runLoop (c : Cfg) : OmniState → List Frame → LoopResult
  | s, [] => ⟨s, [], false⟩
  | s, f :: rest =>
      match handle_message c s f with
      | .ok s' outs =>
          let r := runLoop c s' rest
          ⟨r.state, outs ++ r.outs, r.aborted⟩
      | .err => ⟨s, [Out.log "handler_error"], true⟩

/-- Does an output list contain a console print? -/
def hasLog : List Out → Bool
  | [] => false
  | Out.log _ :: _ => true
  | _ :: rest => hasLog rest

/-- Number of non-terminal response turns representable by the client
state: the state tracks a single current turn, active iff
`_is_responding`. -/
def activeTurns (s : OmniState) : Nat := if s.isResponding then 1 else 0

/-! ## send_event: correlation ids (claim C9) -/

/-- An outbound client event envelope: its `type` and the `event_id`
that `send_event` stamps on it. -/
structure ClientEvent where
  ty : String
  eventId : String
deriving DecidableEq, Repr

/-- Source `OmniRealtimeClient.send_event`:
`event['event_id'] = "event_" + str(int(time.time() * 1000))`, where
`tMs` is the wall-clock reading in milliseconds at the send. -/
def send_event (tMs : Nat) (e : ClientEvent) : ClientEvent :=
  { e with eventId := "event_" ++ toString tMs }

/-- The integer millisecond value embedded in the `event_id` assigned by
`send_event` at clock reading `tMs`. -/
def eventIdMillis (tMs : Nat) : Nat := tMs

/-! ## audio_player.py: the glm AudioPlayer (play_base64 path) -/

/-- State of `samples/audio_player.py`'s `AudioPlayer`: the
`audio_queue` contents and the `is_playing` flag. -/
structure GlmPlayerState where
  audioQueue : List Bytes
  isPlaying : Bool
deriving DecidableEq, Repr

/-- Source `AudioPlayer.play_bytes`: starts the player if necessary, then puts
the chunk on the playback queue. -/
def play_bytes (p : GlmPlayerState) (b : Bytes) : GlmPlayerState :=
  let p' := if p.isPlaying then p else { p with isPlaying := true }
  { p' with audioQueue := p'.audioQueue ++ [b] }

/-- Source `AudioPlayer.play_base64` on the ASCII codes of the payload: an empty
payload returns immediately; a decode failure is caught, printed and
dropped; otherwise the decoded bytes are handed to `play_bytes`.  The
second component lists the error prints. -/
def play_base64 (p : GlmPlayerState) (wire : List Nat) :
    GlmPlayerState × List String :=
  if wire = [] then (p, [])
  else
    match b64decode wire with
    | some bytes => (play_bytes p bytes, [])
    | none => (p, ["decode_failed"])

/-! ## message_handler.py: type-string routing -/

/-- Whether `p` starts `s` (the `str.startswith` test). -/
def strStarts (p s : String) : Bool := List.isPrefixOf p.data s.data

/-- Where `MessageHandler.receive_messages` routes a frame, by its type
string. -/
inductive Route where
  | custom
  | session
  | audioInput
  | conversation
  | functionCall
  | response
  | heartbeat
  | unknownLogged
deriving DecidableEq, Repr

/-- The routing chain of `MessageHandler.receive_messages`: registered
custom handlers first, then the type-string tests in source order; a type
matching nothing is printed as unhandled. -/
def routeMessage (custom : List String) (ty : String) : Route :=
  if ty ∈ custom then .custom
  else if strStarts "session." ty || ty = "error" then .session
  else if strStarts "input_audio_buffer." ty then .audioInput
  else if strStarts "conversation." ty then .conversation
  else if strStarts "response." ty then
    if ty = "response.function_call_arguments.done" then .functionCall
    else .response
  else if ty = "heartbeat" then .heartbeat
  else .unknownLogged

/-! ## Capture pumps (claim C7) -/

/-- Actions of a capture loop, in execution order: waiting on the
session-ready event, opening the microphone, one blocking device read,
one outbound audio-append send, the pacing sleep, closing the device. -/
inductive CapAct where
  | waitReady
  | openMic
  | readMic
  | sendAudio
  | sleepPace
  | closeMic
deriving DecidableEq, Repr

/-- Trace of `n` iterations of the `while True` body of `record_and_send` in
`vad_mode.py`: `stream.read`, `client.stream_audio`, `asyncio.sleep`. -/
def captureIters : Nat → List CapAct
  | 0 => []
  | n + 1 => CapAct.readMic :: CapAct.sendAudio :: CapAct.sleepPace ::
      captureIters n

/-- The action trace of `record_and_send` (vad_mode.py) running `n`
iterations: it opens the microphone and starts reading and sending at
once — there is no session-ready wait anywhere in it. -/
def record_and_send_trace (n : Nat) : List CapAct :=
  CapAct.openMic :: captureIters n ++ [CapAct.closeMic]

/-- Trace of `n` iterations of the send loop of `send_audio_from_mic`
(low_level_sample_server_vad.py): `stream.read`, `client.send`. -/
def glmCaptureIters : Nat → List CapAct
  | 0 => []
  | n + 1 => CapAct.readMic :: CapAct.sendAudio :: glmCaptureIters n

/-- The action trace of `send_audio_from_mic` running `n` iterations:
when the module-level `session_ready_event` exists it first awaits it,
then opens the microphone and loops. -/
def send_audio_from_mic_trace (hasReadyEvt : Bool) (n : Nat) : List CapAct :=
  (if hasReadyEvt then [CapAct.waitReady] else []) ++
    CapAct.openMic :: glmCaptureIters n ++ [CapAct.closeMic]

/-- No device read and no outbound audio send occurs before the first
session-ready wait of the trace. -/
def emitsOnlyAfterReady : List CapAct → Bool
  | [] => true
  | CapAct.waitReady :: _ => true
  | CapAct.readMic :: _ => false
  | CapAct.sendAudio :: _ => false
  | _ :: rest => emitsOnlyAfterReady rest

/-! ## The claims C3, C6, C7, C8, C9 as the spec states them -/

/-- C3, as the spec states it: whenever a speech-start frame arrives
while a turn is active, a `response.cancel` is sent. -/
def c3ClaimCancelOnActive : Prop :=
  ∀ (c : Cfg) (s : OmniState) (f : Frame),
    f.ty = "input_audio_buffer.speech_started" → s.isResponding = true →
    Out.sent "response.cancel" ∈ outsOf (handle_message c s f)

/-- C6, as the spec states it: an unrecognized type with no registered
extension handler is logged (and dropped). -/
def c6ClaimUnknownLogged : Prop :=
  ∀ (c : Cfg) (s : OmniState) (f : Frame),
    f.ty ∉ knownOmniTypes → f.ty ∉ c.extras →
    hasLog (outsOf (handle_message c s f)) = true

/-- C7, as the spec states it: every capture loop (both
`record_and_send` and `send_audio_from_mic`) emits no frame before the
session-ready signal. -/
def c7ClaimNoEmitBeforeReady : Prop :=
  (∀ n, emitsOnlyAfterReady (record_and_send_trace n) = true) ∧
  (∀ n, emitsOnlyAfterReady (send_audio_from_mic_trace true n) = true)

/-- C8, as the spec states it: a base64 decode failure on an audio delta
never terminates the dispatch loop. -/
def c8ClaimDecodeNeverAborts : Prop :=
  ∀ (c : Cfg) (s : OmniState) (f : Frame) (rest : List Frame) (p : String),
    f.ty = "response.audio.delta" → f.delta = some p →
    b64decodeStr p = none →
    (runLoop c s (f :: rest)).aborted = false

/-- C9, as the spec states it: of two events sent in order (the second
at a wall-clock reading no earlier than the first), the later one gets a
strictly greater correlation id. -/
def c9ClaimStrictIds : Prop :=
  ∀ t1 t2 : Nat, t1 ≤ t2 → eventIdMillis t1 < eventIdMillis t2

/-! ### Helper lemmas about the interrupted player -/

theorem interruptEvt_applyOp (s : PlayerState) (op : PlayerOp)
    (h : s.interruptEvt = true) : (applyOp s op).1.interruptEvt = true := by
  cases op with
  | addAudio d => simpa [applyOp, add_audio] using h
  | interrupt => simp [applyOp, handle_interrupt]
  | stopIt => simpa [applyOp, stopPlayer] using h
  | consume =>
      by_cases hs : s.stopEvt
      · simpa [applyOp, runStep, hs] using h
      · cases hq : s.queue with
        | nil => simpa [applyOp, runStep, hs, hq] using h
        | cons a rest =>
            cases a <;> simpa [applyOp, runStep, hs, hq] using h

theorem applyOp_write_none (s : PlayerState) (op : PlayerOp)
    (h : s.interruptEvt = true) : (applyOp s op).2 = none := by
  cases op with
  | addAudio d => simp [applyOp]
  | interrupt => simp [applyOp]
  | stopIt => simp [applyOp]
  | consume =>
      by_cases hs : s.stopEvt
      · simp [applyOp, runStep, hs]
      · cases hq : s.queue with
        | nil => simp [applyOp, runStep, hs, hq]
        | cons a rest =>
            cases a <;> simp [applyOp, runStep, hs, hq, h]

theorem writesTrace_empty_of_interrupted (s : PlayerState)
    (ops : List PlayerOp) (h : s.interruptEvt = true) :
    writesTrace s ops = [] := by
  induction ops generalizing s with
  | nil => rfl
  | cons op rest ih =>
      simp only [writesTrace, applyOp_write_none s op h]
      exact ih _ (interruptEvt_applyOp s op h)

/-! ## Theorems for claims C1, C2, C4 -/

/-- C1 counterexample: The claim says the playback buffer's enqueue
discards a chunk whose generation does not match the live generation; on
the source `AudioPlayer`, `add_audio` on an interrupted player does not
discard anything — the chunk is appended to the queue unconditionally. -/
theorem c1_counterexample : ¬ c1ClaimEnqueueDiscards := by
  intro h
  have := h ⟨[], false, true⟩ [0] rfl
  simp [add_audio] at this

/-- C1 amended: After `handle_interrupt`, no chunk is ever written
to the output device by any subsequent sequence of operations: the
protection is not an enqueue-time generation check (there are no
generation tags; `add_audio` enqueues unconditionally) but the interrupt
flag, which suppresses the consumer's device write forever after. -/
theorem c1_no_write_after_interrupt (s : PlayerState) (ops : List PlayerOp) :
    writesTrace (handle_interrupt s) ops = [] :=
  writesTrace_empty_of_interrupted _ _ rfl

/-- C2 counterexample: The claim says the interrupt call discards
every stale chunk "arriving afterward"; on the source `AudioPlayer`, a
chunk enqueued after `handle_interrupt` is retained in the queue rather
than discarded. -/
theorem c2_counterexample : ¬ c2ClaimLaterDiscarded := by
  intro h
  have := h initPlayer [0]
  simp [add_audio, handle_interrupt, initPlayer] at this

/-- C2 amended: The source player has no generation counter; its
only invalidation state is the boolean interrupt flag.  `handle_interrupt`
sets the flag and clears everything queued at that moment; a second call
changes nothing (so no per-call counter increment exists); a chunk
enqueued after the interrupt stays in the queue but is not written to the
device when the consumer dequeues it. -/
theorem c2_interrupt_flag_semantics :
    (∀ s : PlayerState, handle_interrupt s = ⟨[], s.stopEvt, true⟩) ∧
    (∀ s : PlayerState, handle_interrupt (handle_interrupt s) = handle_interrupt s) ∧
    (∀ (s : PlayerState) (d : Bytes),
      (add_audio d (handle_interrupt s)).queue = [some d]) ∧
    (∀ (s : PlayerState) (d : Bytes),
      (runStep (add_audio d (handle_interrupt s))).2 = none) := by
  refine ⟨fun s => rfl, fun s => rfl, fun s d => rfl, fun s d => ?_⟩
  by_cases hs : s.stopEvt <;> simp [runStep, add_audio, handle_interrupt, hs]

/-- C4: Once `handle_interrupt` has run, no operation ever clears the
interrupt flag, a consumer iteration never writes while the flag is set,
and hence no operation sequence starting from an interrupted state writes
anything to the output device. -/
theorem c4_interrupt_is_permanent :
    (∀ (s : PlayerState) (op : PlayerOp),
      s.interruptEvt = true → (applyOp s op).1.interruptEvt = true) ∧
    (∀ s : PlayerState, s.interruptEvt = true → (runStep s).2 = none) ∧
    (∀ (s : PlayerState) (ops : List PlayerOp),
      s.interruptEvt = true → writesTrace s ops = []) := by
  refine ⟨interruptEvt_applyOp, fun s h => ?_, writesTrace_empty_of_interrupted⟩
  have := applyOp_write_none s .consume h
  simpa [applyOp] using this

/-- C4 witness: Concrete instance: from an interrupted state with a
chunk still queued, consuming, enqueueing and consuming again writes
nothing. -/
theorem c4_witness :
    writesTrace ⟨[some [1]], false, true⟩
      [PlayerOp.consume, PlayerOp.addAudio [2], PlayerOp.consume] = [] :=
  c4_interrupt_is_permanent.2.2 ⟨[some [1]], false, true⟩
    [PlayerOp.consume, PlayerOp.addAudio [2], PlayerOp.consume] rfl

/-! ## Theorems about the base64 codec (claim C10) -/

theorem b64CodeVal_charCode_fin :
    ∀ n : Fin 64, b64CodeVal (b64CharCode n.val) = some n.val := by decide

theorem b64CodeVal_charCode (n : Nat) (h : n < 64) :
    b64CodeVal (b64CharCode n) = some n :=
  b64CodeVal_charCode_fin ⟨n, h⟩

theorem b64CharCode_ne_pad_fin : ∀ n : Fin 64, b64CharCode n.val ≠ 61 := by
  decide

theorem b64CharCode_ne_pad (n : Nat) (h : n < 64) : b64CharCode n ≠ 61 :=
  b64CharCode_ne_pad_fin ⟨n, h⟩

theorem b64_roundtrip : ∀ l : List Nat, (∀ x ∈ l, x < 256) →
    b64decode (b64encode l) = some l
  | [], _ => rfl
  | [a], h => by
      have ha : a < 256 := h a (by simp)
      have h1 : a / 4 < 64 := by omega
      have h2 : a % 4 * 16 < 64 := by omega
      simp only [b64encode, b64decode, b64CodeVal_charCode _ h1,
        b64CodeVal_charCode _ h2]
      simp
      omega
  | [a, b], h => by
      have ha : a < 256 := h a (by simp)
      have hb : b < 256 := h b (by simp)
      have h1 : a / 4 < 64 := by omega
      have h2 : a % 4 * 16 + b / 16 < 64 := by omega
      have h3 : b % 16 * 4 < 64 := by omega
      simp only [b64encode, b64decode, b64CodeVal_charCode _ h1,
        b64CodeVal_charCode _ h2, b64CodeVal_charCode _ h3,
        if_neg (b64CharCode_ne_pad _ h3)]
      simp
      omega
  | a :: b :: c :: rest, h => by
      have ha : a < 256 := h a (by simp)
      have hb : b < 256 := h b (by simp)
      have hc : c < 256 := h c (by simp)
      have h1 : a / 4 < 64 := by omega
      have h2 : a % 4 * 16 + b / 16 < 64 := by omega
      have h3 : b % 16 * 4 + c / 64 < 64 := by omega
      have h4 : c % 64 < 64 := by omega
      have ih := b64_roundtrip rest (fun x hx => h x (by simp [hx]))
      simp only [b64encode, b64decode, b64CodeVal_charCode _ h1,
        b64CodeVal_charCode _ h2, b64CodeVal_charCode _ h3,
        b64CodeVal_charCode _ h4, if_neg (b64CharCode_ne_pad _ h3),
        if_neg (b64CharCode_ne_pad _ h4), ih]
      have e1 : a / 4 * 4 + (a % 4 * 16 + b / 16) / 16 = a := by omega
      have e2 : (a % 4 * 16 + b / 16) % 16 * 16 + (b % 16 * 4 + c / 64) / 4 = b := by
        omega
      have e3 : (b % 16 * 4 + c / 64) % 4 * 64 + c % 64 = c := by omega
      simp [e1, e2, e3]

/-- C10: Encoding a raw PCM byte buffer to the base64 wire
representation and decoding it back yields a byte-identical buffer. -/
theorem c10_wire_roundtrip (l : List Nat) (h : ∀ x ∈ l, x < 256) :
    b64decode (b64encode l) = some l :=
  b64_roundtrip l h

/-- C10 witness: Concrete instance for a three-byte buffer. -/
theorem c10_witness : b64decode (b64encode [0, 255, 16]) = some [0, 255, 16] :=
  c10_wire_roundtrip [0, 255, 16] (by decide)

/-! ## Theorems about the dispatcher (claims C3, C5, C6, C8) -/

/-- C3 counterexample: a `response.created` frame carrying no response id
leaves the dispatcher with an active turn whose `_current_response_id` is
`None`; a speech-start frame arriving then resets the turn but sends no
`response.cancel`, so the claim that an active turn always triggers a
cancel is false. -/
theorem c3_counterexample :
    (runLoop ⟨false, false, false, false, []⟩ initOmni
        [⟨"response.created", none, none, none, none, none⟩]).state =
      ⟨none, none, true, true, ""⟩ ∧
    ¬ c3ClaimCancelOnActive := by
  refine ⟨by decide, fun h => ?_⟩
  have := h ⟨false, false, false, false, []⟩ ⟨none, none, true, true, ""⟩
    ⟨"input_audio_buffer.speech_started", none, none, none, none, none⟩ rfl rfl
  revert this
  decide

/-- C3 amended: on a speech-start frame with an active turn the
dispatcher resets the turn state to Idle (responding flag cleared, both
ids `None`) and sends `response.cancel` provided a non-empty response id
was captured; with an active turn but no truthy response id it still
resets to Idle but sends nothing; with no active turn it only prints and
changes nothing. -/
theorem c3_speech_started_dispatch :
    (∀ (c : Cfg) (s : OmniState) (f : Frame) (rid : String),
      f.ty = "input_audio_buffer.speech_started" → s.isResponding = true →
      s.responseId = some rid → rid ≠ "" →
      handle_message c s f =
        .ok { s with isResponding := false, responseId := none, itemId := none }
          [Out.log "speech_started", Out.log "interrupt",
           Out.sent "response.cancel"]) ∧
    (∀ (c : Cfg) (s : OmniState) (f : Frame),
      f.ty = "input_audio_buffer.speech_started" → s.isResponding = true →
      strTruthy s.responseId = false →
      handle_message c s f =
        .ok { s with isResponding := false, responseId := none, itemId := none }
          [Out.log "speech_started", Out.log "interrupt"]) ∧
    (∀ (c : Cfg) (s : OmniState) (f : Frame),
      f.ty = "input_audio_buffer.speech_started" → s.isResponding = false →
      handle_message c s f = .ok s [Out.log "speech_started"]) := by
  refine ⟨?_, ?_, ?_⟩
  · intro c s f rid hty hresp hrid hne
    rcases f with ⟨ty, fr, fi, fd, ft, fe⟩
    subst hty
    simp [handle_message, handle_interruption, strTruthy, hresp, hrid, hne]
  · intro c s f hty hresp htr
    rcases f with ⟨ty, fr, fi, fd, ft, fe⟩
    subst hty
    simp [handle_message, handle_interruption, hresp, htr]
  · intro c s f hty hresp
    rcases f with ⟨ty, fr, fi, fd, ft, fe⟩
    subst hty
    simp [handle_message, hresp]

/-- C3 witness: concrete responding state with a captured id — the
speech-start frame resets the turn and a `response.cancel` is sent. -/
theorem c3_witness :
    handle_message ⟨false, false, false, false, []⟩
        ⟨some "r1", some "i1", true, true, ""⟩
        ⟨"input_audio_buffer.speech_started", none, none, none, none, none⟩ =
      .ok ⟨none, none, false, true, ""⟩
        [Out.log "speech_started", Out.log "interrupt",
         Out.sent "response.cancel"] :=
  c3_speech_started_dispatch.1 ⟨false, false, false, false, []⟩
    ⟨some "r1", some "i1", true, true, ""⟩
    ⟨"input_audio_buffer.speech_started", none, none, none, none, none⟩
    "r1" rfl rfl rfl (by decide)

/-- C5: the client state tracks at most one non-terminal response turn,
and a `response.done` frame unconditionally returns the dispatcher to
Idle — responding flag cleared, response id and item id reset to `None` —
from any state. -/
theorem c5_response_done_resets :
    (∀ s : OmniState, activeTurns s ≤ 1) ∧
    (∀ (c : Cfg) (s : OmniState) (f : Frame), f.ty = "response.done" →
      handle_message c s f =
        .ok { s with isResponding := false, responseId := none, itemId := none }
          []) := by
  constructor
  · intro s
    unfold activeTurns
    split <;> omega
  · intro c s f hty
    rcases f with ⟨ty, fr, fi, fd, ft, fe⟩
    subst hty
    rfl

/-- C5 witness: a `response.done` frame received mid-turn resets the
state to Idle. -/
theorem c5_witness :
    handle_message ⟨false, false, false, false, []⟩
        ⟨some "r1", some "i1", true, true, ""⟩
        ⟨"response.done", none, none, none, none, none⟩ =
      .ok ⟨none, none, false, true, ""⟩ [] :=
  c5_response_done_resets.2 ⟨false, false, false, false, []⟩
    ⟨some "r1", some "i1", true, true, ""⟩
    ⟨"response.done", none, none, none, none, none⟩ rfl

theorem handle_message_unknown (c : Cfg) (s : OmniState) (f : Frame)
    (h : f.ty ∉ knownOmniTypes) (hx : f.ty ∉ c.extras) :
    handle_message c s f = .ok s [] := by
  simp only [knownOmniTypes, List.mem_cons, List.not_mem_nil, or_false,
    not_or] at h
  obtain ⟨h1, h2, h3, h4, h5, h6, h7, h8, h9, h10, h11⟩ := h
  simp [handle_message, h1, h2, h3, h4, h5, h6, h7, h8, h9, h10, h11, hx]

theorem handle_message_extra (c : Cfg) (s : OmniState) (f : Frame)
    (h : f.ty ∉ knownOmniTypes) (hx : f.ty ∈ c.extras) :
    handle_message c s f = .ok s [Out.callExtra f.ty] := by
  simp only [knownOmniTypes, List.mem_cons, List.not_mem_nil, or_false,
    not_or] at h
  obtain ⟨h1, h2, h3, h4, h5, h6, h7, h8, h9, h10, h11⟩ := h
  simp [handle_message, h1, h2, h3, h4, h5, h6, h7, h8, h9, h10, h11, hx]

/-- C6 counterexample: in the omni client an unrecognized type with no
registered extension handler is dropped silently — it produces no log at
all — so the claim that such a frame is logged is false. -/
theorem c6_counterexample :
    handle_message ⟨false, false, false, false, []⟩ initOmni
        ⟨"mystery.type", none, none, none, none, none⟩ = .ok initOmni [] ∧
    ¬ c6ClaimUnknownLogged := by
  refine ⟨by decide, fun h => ?_⟩
  have := h ⟨false, false, false, false, []⟩ initOmni
    ⟨"mystery.type", none, none, none, none, none⟩ (by decide) (by decide)
  revert this
  decide

/-- C6 amended: the dispatcher never terminates or raises on a frame of
unrecognized type: if a handler is registered under that type string in
the extension map it is invoked, otherwise the frame is dropped (in the
omni client silently, with no log) and the loop goes on processing the
remaining frames exactly as if the frame had not arrived; in
`MessageHandler.receive_messages`, a type registered in the custom
handler map is always routed to it. -/
theorem c6_unknown_type_handling :
    (∀ (c : Cfg) (s : OmniState) (f : Frame),
      f.ty ∉ knownOmniTypes → f.ty ∉ c.extras →
      handle_message c s f = .ok s []) ∧
    (∀ (c : Cfg) (s : OmniState) (f : Frame),
      f.ty ∉ knownOmniTypes → f.ty ∈ c.extras →
      handle_message c s f = .ok s [Out.callExtra f.ty]) ∧
    (∀ (c : Cfg) (s : OmniState) (f : Frame) (rest : List Frame),
      f.ty ∉ knownOmniTypes → f.ty ∉ c.extras →
      runLoop c s (f :: rest) = runLoop c s rest) ∧
    (∀ (custom : List String) (ty : String), ty ∈ custom →
      routeMessage custom ty = .custom) := by
  refine ⟨handle_message_unknown, handle_message_extra, ?_, ?_⟩
  · intro c s f rest h hx
    simp only [runLoop, handle_message_unknown c s f h hx, List.nil_append]
  · intro custom ty h
    simp [routeMessage, h]

/-- C6 witness: a frame of unknown type with a registered extension
handler invokes exactly that handler. -/
theorem c6_witness :
    handle_message ⟨false, false, false, false, ["app.custom"]⟩ initOmni
        ⟨"app.custom", none, none, none, none, none⟩ =
      .ok initOmni [Out.callExtra "app.custom"] :=
  c6_unknown_type_handling.2.1 ⟨false, false, false, false, ["app.custom"]⟩
    initOmni ⟨"app.custom", none, none, none, none, none⟩
    (by decide) (by decide)

/-- C8 counterexample: a `response.audio.delta` frame whose payload is
not valid base64 makes the decode raise inside the loop body; the outer
handler logs and the dispatch loop terminates, so the following frame is
never processed — the claim that a decode failure never terminates the
dispatch loop is false. -/
theorem c8_counterexample :
    (runLoop ⟨false, true, false, false, []⟩ initOmni
        [⟨"response.audio.delta", none, none, some "abc", none, none⟩,
         ⟨"response.text.delta", none, none, some "hi", none, none⟩]).aborted =
      true ∧
    ¬ c8ClaimDecodeNeverAborts := by
  refine ⟨by decide, fun h => ?_⟩
  have := h ⟨false, true, false, false, []⟩ initOmni
    ⟨"response.audio.delta", none, none, some "abc", none, none⟩ []
    "abc" rfl rfl (by decide)
  revert this
  decide

/-- C8 amended: in the glm `AudioPlayer.play_base64` path a bad-base64
chunk is dropped, a failure message is printed and the player state is
unchanged, so playback continues; in the omni client's dispatch loop,
however, a base64 decode failure on an audio delta is logged by the
outer exception handler and terminates the loop, discarding all
subsequent frames. -/
theorem c8_decode_failure_paths :
    (∀ (p : GlmPlayerState) (wire : List Nat), b64decode wire = none →
      play_base64 p wire = (p, ["decode_failed"])) ∧
    (∀ (c : Cfg) (s : OmniState) (f : Frame) (rest : List Frame) (d : String),
      c.hasAudioDelta = true → f.ty = "response.audio.delta" →
      f.delta = some d → b64decodeStr d = none →
      runLoop c s (f :: rest) = ⟨s, [Out.log "handler_error"], true⟩) := by
  constructor
  · intro p wire h
    by_cases hw : wire = []
    · subst hw
      simp [b64decode] at h
    · simp [play_base64, hw, h]
  · intro c s f rest d hc hty hd hb
    rcases f with ⟨ty, fr, fi, fd, ft, fe⟩
    subst hty
    simp only at hd
    subst hd
    simp [runLoop, handle_message, hc, hb]

/-- C8 witness: the glm player drops and logs the malformed payload
`"abc"` (ASCII 97, 98, 99) and its state is unchanged. -/
theorem c8_witness :
    play_base64 ⟨[], false⟩ [97, 98, 99] = (⟨[], false⟩, ["decode_failed"]) :=
  c8_decode_failure_paths.1 ⟨[], false⟩ [97, 98, 99] (by decide)

/-! ## Theorems about correlation ids (claim C9) -/

/-- C9 counterexample: the correlation id is the wall-clock millisecond
reading, so two events sent within the same millisecond get equal — not
strictly increasing — ids; the claim fails at clock pair (0, 0). -/
theorem c9_counterexample : ¬ c9ClaimStrictIds := by
  intro h
  exact absurd (h 0 0 le_rfl) (by simp [eventIdMillis])

/-- C9 amended: the id `send_event` assigns is the string `event_`
followed by the wall-clock millisecond reading; ids strictly increase
exactly when the clock reading strictly increased between the sends, and
two events sent at the same millisecond receive the identical id. -/
theorem c9_ids_follow_clock :
    (∀ t1 t2 : Nat, t1 < t2 → eventIdMillis t1 < eventIdMillis t2) ∧
    (∀ (t : Nat) (e : ClientEvent),
      (send_event t e).eventId = "event_" ++ toString (eventIdMillis t)) ∧
    (∀ (t : Nat) (e1 e2 : ClientEvent),
      (send_event t e1).eventId = (send_event t e2).eventId) :=
  ⟨fun _ _ h => h, fun _ _ => rfl, fun _ _ _ => rfl⟩

/-- C9 witness: strictly later clock readings give strictly greater ids. -/
theorem c9_witness : eventIdMillis 1 < eventIdMillis 2 :=
  c9_ids_follow_clock.1 1 2 (by decide)

/-! ## Theorems about the capture pumps (claim C7) -/

/-- C7 counterexample: `record_and_send` in `vad_mode.py` reads and sends
its first frame with no session-ready wait anywhere in its trace, so the
claim that every capture loop emits zero frames before the session-ready
signal is false. -/
theorem c7_counterexample : ¬ c7ClaimNoEmitBeforeReady := by
  intro h
  have := h.1 1
  revert this
  decide

/-- C7 amended: `send_audio_from_mic` (low_level_sample_server_vad.py)
does block on the session-ready event before its first device read and
first outbound send; `record_and_send` (vad_mode.py) performs no such
wait and emits audio immediately after connecting. -/
theorem c7_glm_pump_waits_for_ready (n : Nat) :
    emitsOnlyAfterReady (send_audio_from_mic_trace true n) = true := rfl
